import Mathlib

/-!
Verification of the datagen-cli configuration validator and incremental
code-injection engine (Go sources under internal/config, internal/codegen and
cmd/add.go), shallowly embedded in Lean.

Strings are modelled as `List Char` (the Go code operates byte-wise on ASCII
text; every string handled here is ASCII, so rune/byte distinctions do not
matter).  `strings.Index` / `strings.Contains` become `goIndexFrom` /
`strContains`, and each Go function that reads and rewrites a file becomes a
pure function from the file's old content to its new content (a returned
`Except.error` in the model corresponds to the Go function returning an error
before reaching its `os.WriteFile` call, i.e. writing nothing).
-/

set_option maxRecDepth 20000

namespace Datagen

/-- Characters of a Lean string literal, used to write the embedded text. -/
def chars (s : String) : List Char := s.data

/-- Model of Go `strings.Index(content, marker)` (result `some i` instead of a
non-negative index, `none` instead of `-1`): index of the first occurrence of
`marker` in `content`, scanning left to right, with `i` the running offset. -/
def goIndexFrom (marker : List Char) (s : List Char) (i : Nat) : Option Nat :=
  if marker.isPrefixOf s then some i
  else
    match s with
    | [] => none
    | _ :: t => goIndexFrom marker t (i + 1)

/-- Model of Go `strings.Contains`. -/
def strContains (content marker : List Char) : Bool :=
  (goIndexFrom marker content 0).isSome

/-- True when `a` occurs in `s` and its first occurrence is strictly before the
first occurrence of `b` (mirrors the index comparison done by the repository's
generator test). -/
def occursStrictlyBefore (a b s : List Char) : Bool :=
  match goIndexFrom a s 0, goIndexFrom b s 0 with
  | some i, some j => Nat.blt i j
  | _, _ => false

/-- Model of Go `strings.HasPrefix`. -/
def strStartsWith (s p : String) : Bool :=
  p.data.isPrefixOf s.data

/-- ASCII uppercase of one character (`toUpper` in internal/config/types.go
and naming.go operates on exactly this ASCII range). -/
def toUpperRune (r : Char) : Char :=
  if 'a' ≤ r ∧ r ≤ 'z' then Char.ofNat (r.toNat - 32) else r

/-- ASCII lowercase of one character (inverse direction of `toUpperRune`). -/
def toLowerRune (r : Char) : Char :=
  if 'A' ≤ r ∧ r ≤ 'Z' then Char.ofNat (r.toNat + 32) else r

/-- Modelled from the spec: the template-function registry (`templateFuncs`,
defined in the generator file that is not under src/) provides a `lower`
helper used as `{{... | lower}}`; per the spec these are plain string-case
helpers (Go `strings.ToLower`), modelled here on the ASCII range actually
occurring in names and env-var identifiers. -/
def asciiLower (s : String) : String :=
  ⟨s.data.map toLowerRune⟩

/-- Model of Go `strings.ToUpper` on the ASCII range (used by
`updateEnvExample` on env-var names). -/
def asciiUpper (s : String) : String :=
  ⟨s.data.map toUpperRune⟩

/-- Modelled from the spec: the `replace` helper of the template-function
registry (`templateFuncs`, not under src/), i.e. Go `strings.ReplaceAll`:
every non-overlapping occurrence of `old` is replaced by `new`, scanning left
to right; an empty `old` leaves the string unchanged in the template's usage. -/
def replaceAll (old new : List Char) (s : List Char) : List Char :=
  if hOld : old.length = 0 then s
  else if hPre : old.isPrefixOf s then
    new ++ replaceAll old new (s.drop old.length)
  else
    match s with
    | [] => []
    | c :: rest => c :: replaceAll old new rest
termination_by s.length
decreasing_by
  · have hle : old.length ≤ s.length := (List.isPrefixOf_iff_prefix.mp hPre).length_le
    have hpos : 0 < old.length := Nat.pos_of_ne_zero hOld
    have hspos : 0 < s.length := Nat.lt_of_lt_of_le hpos hle
    simp only [List.length_drop]
    omega
  · simp

/-- Go template pipeline `{{x | lower | replace "-" "_"}}`. -/
def headerIdent (h : String) : List Char :=
  replaceAll (chars "-") (chars "_") (asciiLower h).data

/-- internal/config/types.go: `AllowedTools`. -/
structure AllowedTools where
  SearchTools : Bool
  ExecuteTools : Bool
  ExecuteCode : Bool
  GetToolDetails : Bool
deriving DecidableEq, Repr

/-- internal/config/types.go: `Field` (a single schema field; Go field `Type`
is rendered here as `Type'` because `Type` is a Lean keyword). -/
structure Field where
  Name : String
  Type' : String
  Required : Bool
  Default : String
deriving DecidableEq, Repr

/-- internal/config/types.go: `Schema`. -/
structure Schema where
  Name : String
  Fields : List Field
deriving DecidableEq, Repr

/-- internal/config/types.go: `Auth` (Go field `Type` rendered as `Type'`). -/
structure Auth where
  Type' : String
  Header : String
  EnvVar : String
deriving DecidableEq, Repr

/-- internal/config/types.go: `WebhookConfig`. -/
structure WebhookConfig where
  SignatureVerification : String
  SignatureHeader : String
  SecretEnv : String
  RetryEnabled : Bool
  MaxRetries : Int
  BackoffStrategy : String
deriving DecidableEq, Repr

/-- internal/config/types.go: `APIConfig`. -/
structure APIConfig where
  ResponseFormat : String
  Timeout : Int
  RateLimitEnabled : Bool
  RateLimitRPM : Int
deriving DecidableEq, Repr

/-- internal/config/types.go: `StreamingConfig`. -/
structure StreamingConfig where
  Format : String
  BufferSize : Int
deriving DecidableEq, Repr

/-- internal/config/types.go: `Service` (Go field `Type` rendered as `Type'`;
pointer-typed optional sub-objects become `Option`). -/
structure Service where
  Name : String
  Type' : String
  Description : String
  Prompt : String
  AllowedTools : AllowedTools
  InputSchema : Schema
  OutputSchema : Option Schema
  Auth : Option Auth
  Webhook : Option WebhookConfig
  API : Option APIConfig
  Streaming : Option StreamingConfig
  WebhookPath : String
  APIPath : String
deriving DecidableEq, Repr

/-- internal/config/types.go: `DatagenConfig`. -/
structure DatagenConfig where
  DatagenAPIKeyEnv : String
  ClaudeAPIKeyEnv : String
  Services : List Service
deriving DecidableEq, Repr

/-- internal/config/types.go: `toPascalCase` (capitalize the first rune). -/
def toPascalCase (s : String) : String :=
  match s.data with
  | [] => s
  | c :: rest => ⟨toUpperRune c :: rest⟩

/-- internal/config/types.go: `(*Service).GetFunctionName`. -/
def Service.GetFunctionName (s : Service) : String :=
  s.Name ++ "_handler"

/-- internal/config/types.go: `(*Service).GetInputModelName`. -/
def Service.GetInputModelName (s : Service) : String :=
  toPascalCase s.Name ++ "Input"

/-- internal/config/types.go: `(*Service).GetOutputModelName`. -/
def Service.GetOutputModelName (s : Service) : String :=
  toPascalCase s.Name ++ "Output"

/-- internal/config/types.go: `(*Service).GetTaskName`. -/
def Service.GetTaskName (s : Service) : String :=
  s.Name ++ "_task"

/-- Boolean test used by `Except`-valued checks below. -/
def exceptErr : Except String Unit → Bool
  | .error _ => true
  | .ok _ => false

/-- internal/config/validator.go: the closed service-kind enum of
`validateService`. -/
def validServiceType (t : String) : Bool :=
  t = "webhook" || t = "api" || t = "streaming"

/-- internal/config/validator.go: the closed field-type enum of
`validateField`. -/
def validFieldType (t : String) : Bool :=
  t = "str" || t = "int" || t = "float" || t = "bool" ||
  t = "list" || t = "dict" || t = "any"

/-- internal/config/validator.go: `validateField`. -/
def validateField (field : Field) : Except String Unit :=
  if field.Name = "" then .error "field name is required"
  else if validFieldType field.Type' = false then
    .error ("invalid type \x27" ++ field.Type' ++
      "\x27, must be one of: str, int, float, bool, list, dict, any")
  else .ok ()

/-- internal/config/validator.go: `validateAuth`. -/
def validateAuth (auth : Auth) : Except String Unit :=
  if (auth.Type' = "api_key" || auth.Type' = "bearer_token" ||
      auth.Type' = "oauth" || auth.Type' = "none") = false then
    .error ("invalid auth type \x27" ++ auth.Type' ++
      "\x27, must be one of: api_key, bearer_token, oauth, none")
  else if auth.Type' ≠ "none" ∧ auth.EnvVar = "" then
    .error "env_var is required when auth type is not \x27none\x27"
  else .ok ()

/-- internal/config/validator.go: the trailing `retry_enabled` check of
`validateWebhookConfig`. -/
def webhookRetryCheck (wh : WebhookConfig) : Except String Unit :=
  if wh.RetryEnabled = true ∧ wh.MaxRetries ≤ 0 then
    .error "max_retries must be > 0 when retry_enabled is true"
  else .ok ()

/-- internal/config/validator.go: `validateWebhookConfig`.  The Go body is a
nested `if signatureVerification != ""` block followed by the retry check;
the nesting is flattened here into an equivalent first-error chain. -/
def validateWebhookConfig (wh : WebhookConfig) : Except String Unit :=
  if wh.SignatureVerification = "" then webhookRetryCheck wh
  else if (wh.SignatureVerification = "hmac_sha256" ||
      wh.SignatureVerification = "custom" ||
      wh.SignatureVerification = "none") = false then
    .error ("invalid signature_verification \x27" ++ wh.SignatureVerification ++ "\x27")
  else if wh.SignatureVerification = "hmac_sha256" ∧ wh.SignatureHeader = "" then
    .error "signature_header is required for hmac_sha256"
  else if wh.SignatureVerification = "hmac_sha256" ∧ wh.SecretEnv = "" then
    .error "secret_env is required for hmac_sha256"
  else webhookRetryCheck wh

/-- internal/config/validator.go: `validateAPIConfig`. -/
def validateAPIConfig (api : APIConfig) : Except String Unit :=
  if api.Timeout ≤ 0 then .error "timeout must be > 0"
  else if api.RateLimitEnabled = true ∧ api.RateLimitRPM ≤ 0 then
    .error "rate_limit_rpm must be > 0 when rate_limit_enabled is true"
  else if (api.ResponseFormat = "json" || api.ResponseFormat = "text" ||
      api.ResponseFormat = "custom") = false then
    .error ("invalid response_format \x27" ++ api.ResponseFormat ++ "\x27")
  else .ok ()

/-- internal/config/validator.go: `validateStreamingConfig`. -/
def validateStreamingConfig (stream : StreamingConfig) : Except String Unit :=
  if (stream.Format = "default" || stream.Format = "json" ||
      stream.Format = "custom") = false then
    .error ("invalid format \x27" ++ stream.Format ++ "\x27")
  else if stream.BufferSize ≤ 0 then .error "buffer_size must be > 0"
  else .ok ()

/-- internal/config/validator.go: the prompt-file existence probe of
`validateService` (`filepath.IsAbs` / `filepath.Join` / `os.Stat`).  The
filesystem is passed in as the predicate `fs`; the path join is modelled as
plain concatenation with `/` (no claim depends on Go's path cleaning). -/
def promptFileExists (fs : String → Bool) (configDir prompt : String) : Bool :=
  if strStartsWith prompt "/" then fs prompt
  else fs (configDir ++ "/" ++ prompt)

/-- internal/config/validator.go: the `switch svc.Type` block of
`validateService` (path rules plus the per-kind settings validation,
with the Go error wrapping). -/
def svcPathCheck (svc : Service) : Except String Unit :=
  if svc.Type' = "webhook" then
    if svc.WebhookPath = "" then .error "webhook_path is required for webhook type"
    else if strStartsWith svc.WebhookPath "/" = false then
      .error "webhook_path must start with /"
    else
      match svc.Webhook with
      | some wh =>
        match validateWebhookConfig wh with
        | .error e => .error ("webhook config: " ++ e)
        | .ok _ => .ok ()
      | none => .ok ()
  else if svc.Type' = "api" then
    if svc.APIPath = "" then .error "api_path is required for api type"
    else if strStartsWith svc.APIPath "/" = false then
      .error "api_path must start with /"
    else
      match svc.API with
      | some api =>
        match validateAPIConfig api with
        | .error e => .error ("api config: " ++ e)
        | .ok _ => .ok ()
      | none => .ok ()
  else if svc.Type' = "streaming" then
    if svc.APIPath = "" then .error "api_path is required for streaming type"
    else if strStartsWith svc.APIPath "/" = false then
      .error "api_path must start with /"
    else
      match svc.Streaming with
      | some stream =>
        match validateStreamingConfig stream with
        | .error e => .error ("streaming config: " ++ e)
        | .ok _ => .ok ()
      | none => .ok ()
  else .ok ()

/-- internal/config/validator.go: the per-field loops of `validateService`
(`label` is `input_schema` or `output_schema`, matching the Go wrapping). -/
def validateFieldsLoop (label : String) : List Field → Except String Unit
  | [] => .ok ()
  | f :: rest =>
    match validateField f with
    | .error e => .error (label ++ " field \x27" ++ f.Name ++ "\x27: " ++ e)
    | .ok _ => validateFieldsLoop label rest

/-- internal/config/validator.go: the output-schema block of
`validateService` (`svc.Type == "api" && svc.OutputSchema != nil &&
len(svc.OutputSchema.Fields) > 0`). -/
def outputSchemaCheck (svc : Service) : Except String Unit :=
  if svc.Type' = "api" then
    match svc.OutputSchema with
    | some out =>
      if 0 < out.Fields.length then validateFieldsLoop "output_schema" out.Fields
      else .ok ()
    | none => .ok ()
  else .ok ()

/-- internal/config/validator.go: `validateService` (the `index` parameter is
carried but, exactly as in the Go body, never used). -/
def validateService (fs : String → Bool) (svc : Service) (index : Nat)
    (configDir : String) : Except String Unit :=
  if svc.Name = "" then .error "name is required"
  else if svc.Type' = "" then .error "type is required"
  else if svc.Description = "" then .error "description is required"
  else if svc.Prompt = "" then .error "prompt is required"
  else if validServiceType svc.Type' = false then
    .error ("invalid type \x27" ++ svc.Type' ++
      "\x27, must be one of: webhook, api, streaming")
  else if promptFileExists fs configDir svc.Prompt = false then
    .error ("prompt file not found: " ++ svc.Prompt)
  else
    match svcPathCheck svc with
    | .error e => .error e
    | .ok _ =>
      match validateFieldsLoop "input_schema" svc.InputSchema.Fields with
      | .error e => .error e
      | .ok _ =>
        match outputSchemaCheck svc with
        | .error e => .error e
        | .ok _ =>
          match svc.Auth with
          | some auth =>
            match validateAuth auth with
            | .error e => .error ("auth config: " ++ e)
            | .ok _ => .ok ()
          | none => .ok ()

/-- internal/config/validator.go: the service loop of `ValidateConfig`, with
the Go index-and-name error wrapping. -/
def validateServicesLoop (fs : String → Bool) (configDir : String) :
    List Service → Nat → Except String Unit
  | [], _ => .ok ()
  | svc :: rest, i =>
    match validateService fs svc i configDir with
    | .error e =>
      .error ("service[" ++ toString i ++ "] (" ++ svc.Name ++ "): " ++ e)
    | .ok _ => validateServicesLoop fs configDir rest (i + 1)

/-- internal/config/validator.go: `ValidateConfig`. -/
def ValidateConfig (fs : String → Bool) (cfg : DatagenConfig)
    (configDir : String) : Except String Unit :=
  if cfg.DatagenAPIKeyEnv = "" then .error "datagen_api_key_env is required"
  else if cfg.ClaudeAPIKeyEnv = "" then .error "claude_api_key_env is required"
  else if cfg.Services.length = 0 then
    .error "at least one service must be defined"
  else validateServicesLoop fs configDir cfg.Services 0

/-- internal/codegen (incremental file): truthiness of the template condition
`and .Webhook .Webhook.SignatureVerification (eq .Webhook.SignatureVerification
"hmac_sha256")` (a non-nil pointer and a non-empty string are truthy). -/
def hmacCond (svc : Service) : Bool :=
  match svc.Webhook with
  | some wh => wh.SignatureVerification ≠ "" ∧ wh.SignatureVerification = "hmac_sha256"
  | none => false

/-- internal/codegen (incremental file): truthiness of the template condition
`and .Streaming (eq .Streaming.Format "json")`. -/
def streamJsonCond (svc : Service) : Bool :=
  match svc.Streaming with
  | some st => st.Format = "json"
  | none => false

/-- Endpoint template, `{{if eq .Auth.Type "api_key"}}` body of the auth
helper (identical text in all three kind branches of `generateEndpointCode`). -/
def authBranchApiKey (auth : Auth) : List Char :=
  chars "\n    expected_key = getattr(settings, \"" ++ (asciiLower auth.EnvVar).data ++
  chars "\", None)\n    if not expected_key:\n        return  # Auth optional if not configured\n    if " ++
  headerIdent auth.Header ++
  chars " is None:\n        raise HTTPException(status_code=401, detail=\"API key required\")\n    if " ++
  headerIdent auth.Header ++
  chars " != expected_key:\n        raise HTTPException(status_code=401, detail=\"Invalid API key\")\n    "

/-- Endpoint template, `{{else if eq .Auth.Type "bearer_token"}}` body of the
auth helper. -/
def authBranchBearer (auth : Auth) : List Char :=
  chars "\n    expected_token = getattr(settings, \"" ++ (asciiLower auth.EnvVar).data ++
  chars "\", None)\n    if not expected_token:\n        return  # Auth optional if not configured\n    if authorization is None:\n        raise HTTPException(status_code=401, detail=\"Bearer token required\")\n    if not authorization.startswith(\"Bearer \"):\n        raise HTTPException(status_code=401, detail=\"Invalid authorization format\")\n    token = authorization[7:]\n    if token != expected_token:\n        raise HTTPException(status_code=401, detail=\"Invalid bearer token\")\n    "

/-- Endpoint template: the inline parameter of `verify_<name>_auth`. -/
def authSigPart (auth : Auth) : List Char :=
  if auth.Type' = "api_key" then
    headerIdent auth.Header ++ chars ": str | None = Header(None, alias=\"" ++
      auth.Header.data ++ chars "\")"
  else if auth.Type' = "bearer_token" then
    chars "authorization: str | None = Header(None)"
  else []

/-- Endpoint template: the `{{if .Auth}}...{{end}}` helper block (the template
repeats this text verbatim in the webhook, api and streaming branches). -/
def authBlock (name : String) (auth : Auth) : List Char :=
  chars "\nasync def verify_" ++ name.data ++ chars "_auth(" ++ authSigPart auth ++
  chars "):\n    \"\"\"Verify authentication for " ++ name.data ++
  chars " endpoint.\"\"\"\n    " ++
  (if auth.Type' = "api_key" then authBranchApiKey auth
   else if auth.Type' = "bearer_token" then authBranchBearer auth
   else []) ++
  chars "\n"

/-- Endpoint template: the webhook HMAC helper `verify_<name>_signature`
emitted under `{{if and .Webhook ... "hmac_sha256"}}`.  Note the emitted code
reads and requires the signature header BEFORE looking up the secret. -/
def hmacHelper (name : String) (wh : WebhookConfig) : List Char :=
  chars "\ndef verify_" ++ name.data ++
  chars "_signature(request: Request, body: bytes):\n    \"\"\"Verify HMAC signature for " ++
  name.data ++
  chars " webhook.\"\"\"\n    signature = request.headers.get(\"" ++
  wh.SignatureHeader.data ++
  chars "\")\n    if not signature:\n        raise HTTPException(status_code=401, detail=\"Missing signature\")\n\n    secret = getattr(settings, \"" ++
  (asciiLower wh.SecretEnv).data ++
  chars "\", None)\n    if not secret:\n        return  # Verification optional if secret not configured\n\n    expected = hmac.new(secret.encode(), body, hashlib.sha256).hexdigest()\n    if not hmac.compare_digest(signature, expected):\n        raise HTTPException(status_code=401, detail=\"Invalid signature\")\n"

/-- Endpoint template: `{{if .Auth}}_: None = Depends(verify_<name>_auth),{{end}}`
parameter line fragment. -/
def authDependsPart (svc : Service) : List Char :=
  match svc.Auth with
  | some _ => chars "_: None = Depends(verify_" ++ svc.Name.data ++ chars "_auth),"
  | none => []

/-- Endpoint template: the `{{if eq .Type "webhook"}}` branch. -/
def webhookBranch (svc : Service) : List Char :=
  chars "\n# Webhook endpoint: " ++ svc.Name.data ++ chars "\n" ++
  (match svc.Auth with
   | some auth => authBlock svc.Name auth
   | none => []) ++
  chars "\n\n" ++
  (if hmacCond svc then
    (match svc.Webhook with
     | some wh => hmacHelper svc.Name wh
     | none => [])
   else []) ++
  chars "\n\nasync def " ++ svc.Name.data ++ chars "_task(payload: " ++
  svc.GetInputModelName.data ++
  chars ", request_id: str):\n    \"\"\"Background task for " ++ svc.Name.data ++
  chars ".\"\"\"\n    try:\n        executor = agent_executors[\"" ++ svc.Name.data ++
  chars "\"]\n        await executor.execute(payload.model_dump(), request_id)\n    except Exception as e:\n        log_event(\n            \"background_task_error\",\n            request_id=request_id,\n            service=\"" ++
  svc.Name.data ++
  chars "\",\n            error=str(e),\n            error_type=type(e).__name__,\n        )\n\n@app.post(\"" ++
  svc.WebhookPath.data ++
  chars "\")\nasync def " ++ svc.GetFunctionName.data ++
  chars "(\n    request: Request,\n    payload: " ++ svc.GetInputModelName.data ++
  chars ",\n    background_tasks: BackgroundTasks,\n    " ++
  authDependsPart svc ++
  chars "\n):\n    \"\"\"\n    " ++ svc.Description.data ++
  chars "\n\n    Type: Webhook (async background processing)\n    \"\"\"\n    request_id = request.state.request_id\n\n    " ++
  (if hmacCond svc then
    chars "\n    body = await request.body()\n    verify_" ++ svc.Name.data ++
    chars "_signature(request, body)\n    "
   else []) ++
  chars "\n\n    log_event(\"webhook_queued\", request_id=request_id, service=\"" ++
  svc.Name.data ++
  chars "\")\n    background_tasks.add_task(" ++ svc.Name.data ++
  chars "_task, payload, request_id)\n\n    return \x7b\"status\": \"accepted\", \"request_id\": request_id, \"message\": \"Processing in background\"\x7d\n\n"

/-- Endpoint template: the `{{else if eq .Type "api"}}` branch. -/
def apiBranch (svc : Service) : List Char :=
  chars "\n# API endpoint: " ++ svc.Name.data ++ chars "\n" ++
  (match svc.Auth with
   | some auth => authBlock svc.Name auth
   | none => []) ++
  chars "\n\n@app.post(\"" ++ svc.APIPath.data ++ chars "\"" ++
  (match svc.OutputSchema with
   | some _ => chars ", response_model=" ++ svc.GetOutputModelName.data
   | none => []) ++
  chars ")\nasync def " ++ svc.GetFunctionName.data ++
  chars "(\n    request: Request,\n    payload: " ++ svc.GetInputModelName.data ++
  chars ",\n    " ++ authDependsPart svc ++
  chars "\n):\n    \"\"\"\n    " ++ svc.Description.data ++
  chars "\n\n    Type: API (synchronous)\n    " ++
  (match svc.API with
   | some api => chars "Timeout: " ++ (toString api.Timeout).data ++ chars "s"
   | none => []) ++
  chars "\n    \"\"\"\n    request_id = request.state.request_id\n\n    try:\n        executor = agent_executors[\"" ++
  svc.Name.data ++
  chars "\"]\n        result = await executor.execute(payload.model_dump(), request_id)\n        " ++
  (match svc.OutputSchema with
   | some _ =>
     chars "\n        # TODO: Parse result into " ++ svc.GetOutputModelName.data ++
     chars "\n        return " ++ svc.GetOutputModelName.data ++
     chars "(result=result)\n        "
   | none =>
     chars "\n        return \x7b\"status\": \"completed\", \"request_id\": request_id, \"result\": result\x7d\n        ") ++
  chars "\n    except Exception as e:\n        log_event(\"api_error\", request_id=request_id, service=\"" ++
  svc.Name.data ++
  chars "\", error=str(e))\n        raise HTTPException(status_code=500, detail=\"Agent execution failed\")\n\n"

/-- Endpoint template: the `{{else if eq .Type "streaming"}}` branch. -/
def streamingBranch (svc : Service) : List Char :=
  chars "\n# Streaming endpoint: " ++ svc.Name.data ++ chars "\n" ++
  (match svc.Auth with
   | some auth => authBlock svc.Name auth
   | none => []) ++
  chars "\n\n@app.post(\"" ++ svc.APIPath.data ++ chars "\")\nasync def " ++
  svc.GetFunctionName.data ++
  chars "(\n    request: Request,\n    payload: " ++ svc.GetInputModelName.data ++
  chars ",\n    " ++ authDependsPart svc ++
  chars "\n):\n    \"\"\"\n    " ++ svc.Description.data ++
  chars "\n\n    Type: Streaming (SSE)\n    \"\"\"\n    request_id = request.state.request_id\n\n    async def event_generator():\n        try:\n            executor = agent_executors[\"" ++
  svc.Name.data ++
  chars "\"]\n            async for chunk in executor.stream_execute(payload.model_dump(), request_id):\n                " ++
  (if streamJsonCond svc then
    chars "\n                import json\n                yield f\"data: \x7bjson.dumps(\x7b\x27text\x27: chunk\x7d)\x7d\\n\\n\"\n                "
   else
    chars "\n                yield f\"data: \x7bchunk\x7d\\n\\n\"\n                ") ++
  chars "\n            yield \"event: done\\ndata: [DONE]\\n\\n\"\n        except Exception as e:\n            log_event(\"streaming_error\", request_id=request_id, service=\"" ++
  svc.Name.data ++
  chars "\", error=str(e))\n            yield f\"event: error\\ndata: \x7bstr(e)\x7d\\n\\n\"\n\n    headers = \x7b\"X-Request-ID\": request_id\x7d\n    return StreamingResponse(event_generator(), media_type=\"text/event-stream\", headers=headers)\n\n"

/-- internal/codegen (incremental file): `generateEndpointCode`, the rendering
of the per-service endpoint-handler mini-template over a `Service`.  The Go
function's error return is unreachable for this fixed, well-formed template
(parse of a constant template; all field accesses guarded), so the model is
total. -/
def generateEndpointCode (svc : Service) : List Char :=
  chars "\n" ++
  (if svc.Type' = "webhook" then webhookBranch svc
   else if svc.Type' = "api" then apiBranch svc
   else if svc.Type' = "streaming" then streamingBranch svc
   else [])

/-- Models template: the `{{if eq .Type "str"}}str{{else if ...}}...{{else}}Any{{end}}`
field-type rendering of `generateModelCode`. -/
def pyFieldType (t : String) : List Char :=
  if t = "str" then chars "str"
  else if t = "int" then chars "int"
  else if t = "float" then chars "float"
  else if t = "bool" then chars "bool"
  else if t = "list" then chars "List[Any]"
  else if t = "dict" then chars "Dict[str, Any]"
  else chars "Any"

/-- Models template: one iteration of the `{{range ...Fields}}` body. -/
def modelFieldLine (f : Field) : List Char :=
  chars "\n    " ++ f.Name.data ++ chars ": " ++ pyFieldType f.Type' ++
  (if f.Required = false then chars " | None = None" else []) ++
  (if f.Default ≠ "" then chars " = \"" ++ f.Default.data ++ chars "\"" else []) ++
  chars "\n    "

/-- internal/codegen (incremental file): `generateModelCode`, the rendering of
the per-service Pydantic-model mini-template. -/
def generateModelCode (svc : Service) : List Char :=
  chars "# Models for " ++ svc.Name.data ++ chars " service\nclass " ++
  svc.GetInputModelName.data ++
  chars "(BaseModel):\n    \"\"\"Input model for " ++ svc.Name.data ++
  chars " endpoint.\"\"\"\n    " ++
  (svc.InputSchema.Fields.map modelFieldLine).flatten ++
  chars "\n\n" ++
  (match svc.OutputSchema with
   | some out =>
     chars "\nclass " ++ svc.GetOutputModelName.data ++
     chars "(BaseModel):\n    \"\"\"Output model for " ++ svc.Name.data ++
     chars " endpoint.\"\"\"\n    " ++
     (out.Fields.map modelFieldLine).flatten ++
     chars "\n"
   | none => []) ++
  chars "\n"

/-- Marker text checked by `updateMainPy` (`strings.Contains`). -/
def agentLoadingStartM : List Char := chars "=== AGENT LOADING START ==="

/-- Marker text checked by `updateMainPy` (`strings.Contains`). -/
def endpointHandlersStartM : List Char := chars "=== ENDPOINT HANDLERS START ==="

/-- Injection marker used by `updateMainPy` for the agent-loading zone. -/
def agentLoadingEndM : List Char := chars "    # === AGENT LOADING END ==="

/-- Injection marker used by `updateMainPy` for the endpoint-handlers zone. -/
def endpointHandlersEndM : List Char := chars "# === ENDPOINT HANDLERS END ==="

/-- Marker text checked by `updateModelsPy`. -/
def serviceModelsStartM : List Char := chars "=== SERVICE MODELS START ==="

/-- Injection marker used by `updateModelsPy`. -/
def serviceModelsEndM : List Char := chars "# === SERVICE MODELS END ==="

/-- Search pattern of `updateHealthCheckServices`. -/
def servicesPat : List Char := chars "\"services\": ["

/-- End pattern of `updateHealthCheckServices` (`"],"`, length 2). -/
def closeBracketComma : List Char := chars "],"

/-- internal/codegen (incremental file): `injectBeforeMarker` — insert
`codeToInject` immediately before the first occurrence of `marker`; if the
marker is absent, return the content unchanged. -/
def injectBeforeMarker (content marker codeToInject : List Char) : List Char :=
  match goIndexFrom marker content 0 with
  | none => content
  | some i => content.take i ++ codeToInject ++ content.drop i

/-- internal/codegen (incremental file): the `"<name>"` list built by
`updateHealthCheckServices` from the full `cfg.Services`, joined with `", "`. -/
def healthList (cfg : DatagenConfig) : List Char :=
  List.intercalate (chars ", ")
    (cfg.Services.map (fun svc => chars "\"" ++ svc.Name.data ++ chars "\""))

/-- internal/codegen (incremental file): `updateHealthCheckServices` — find
the first `"services": [`, find the first `],` after it, and replace
everything between with the full current service-name list. -/
def updateHealthCheckServices (content : List Char) (cfg : DatagenConfig) : List Char :=
  match goIndexFrom servicesPat content 0 with
  | none => content
  | some hs =>
    match goIndexFrom closeBracketComma (content.drop hs) 0 with
    | none => content
    | some he =>
      content.take hs ++ servicesPat ++ healthList cfg ++ closeBracketComma ++
        content.drop (hs + he + 2)

/-- internal/codegen (incremental file): the agent-registration line built by
`updateMainPy` (`fmt.Sprintf` with the service name twice and the prompt). -/
def agentLoadingCode (svc : Service) : List Char :=
  chars "    agent_executors[\"" ++ svc.Name.data ++ chars "\"] = load_agent(\"" ++
  svc.Name.data ++ chars "\", \"" ++ svc.Prompt.data ++ chars "\")"

/-- internal/codegen (incremental file): `updateMainPy`.  The function reads
`app/main.py` (here: the `mainContent` argument), requires the two START
markers via `strings.Contains`, splices the agent-registration line and the
endpoint-handler block before the corresponding END markers, rewrites the
health-check list, and writes the file back.  `Except.error` corresponds to
returning before the `os.WriteFile` call (nothing written); `Except.ok c`
corresponds to writing content `c`. -/
def updateMainPy (cfg : DatagenConfig) (newService : Service)
    (mainContent : List Char) : Except String (List Char) :=
  if strContains mainContent agentLoadingStartM = false then
    .error "missing agent loading markers in main.py - file may have been manually modified"
  else if strContains mainContent endpointHandlersStartM = false then
    .error "missing endpoint handlers markers in main.py - file may have been manually modified"
  else
    .ok (updateHealthCheckServices
      (injectBeforeMarker
        (injectBeforeMarker mainContent agentLoadingEndM
          (agentLoadingCode newService ++ chars "\n"))
        endpointHandlersEndM
        (generateEndpointCode newService ++ chars "\n"))
      cfg)

/-- internal/codegen (incremental file): `updateModelsPy`. -/
def updateModelsPy (newService : Service)
    (modelsContent : List Char) : Except String (List Char) :=
  if strContains modelsContent serviceModelsStartM = false then
    .error "missing service models markers in models.py - file may have been manually modified"
  else
    .ok (injectBeforeMarker modelsContent serviceModelsEndM
      (generateModelCode newService ++ chars "\n"))

/-- internal/codegen (incremental file): `updateEnvExample` — append the
newly-introduced env-var names (with placeholders) when not already present;
when nothing is to be appended the Go function performs no write, i.e. the
content is returned unchanged. -/
def updateEnvExample (newService : Service) (envContent : List Char) : List Char :=
  let authVars : List (List Char) :=
    match newService.Auth with
    | some a =>
      if a.EnvVar ≠ "" ∧
          strContains envContent ((asciiUpper a.EnvVar).data ++ chars "=") = false then
        [chars "\n# " ++ newService.Name.data ++ chars " authentication",
         (asciiUpper a.EnvVar).data ++ chars "=your_" ++
           (asciiLower newService.Name).data ++ chars "_key_here"]
      else []
    | none => []
  let webhookVars : List (List Char) :=
    match newService.Webhook with
    | some w =>
      if w.SecretEnv ≠ "" ∧
          strContains envContent ((asciiUpper w.SecretEnv).data ++ chars "=") = false then
        [chars "\n# " ++ newService.Name.data ++ chars " webhook signature verification",
         (asciiUpper w.SecretEnv).data ++ chars "=your_webhook_secret_here"]
      else []
    | none => []
  let newVars := authVars ++ webhookVars
  if newVars.length = 0 then envContent
  else envContent ++ chars "\n" ++ List.intercalate (chars "\n") newVars ++ chars "\n"

/-- The three project files touched by `IncrementalAddService`. -/
structure ProjectFiles where
  mainPy : List Char
  modelsPy : List Char
  envExample : List Char
deriving DecidableEq

/-- internal/codegen (incremental file): `IncrementalAddService`.  Each step
writes its file back immediately, so the result pairs the file state reached
(including partial updates before a later failure) with the error, if any —
matching the Go sequencing where a failure in a later step leaves earlier
files already rewritten. -/
def IncrementalAddService (cfg : DatagenConfig) (newService : Service)
    (files : ProjectFiles) : ProjectFiles × Option String :=
  match updateMainPy cfg newService files.mainPy with
  | .error e => (files, some ("failed to update main.py: " ++ e))
  | .ok m =>
    let files1 : ProjectFiles := { files with mainPy := m }
    match updateModelsPy newService files.modelsPy with
    | .error e => (files1, some ("failed to update models.py: " ++ e))
    | .ok mo =>
      let files2 : ProjectFiles := { files1 with modelsPy := mo }
      if newService.Auth.isSome ||
          (match newService.Webhook with
           | some w => decide (w.SecretEnv ≠ "")
           | none => false) then
        ({ files2 with envExample := updateEnvExample newService files.envExample }, none)
      else (files2, none)

/-- cmd/add.go: the core of `runAdd` after the configuration is loaded and the
new service collected.  The duplicate-name loop runs first; `os.Exit(1)` is
modelled by returning with an error message and `none` performed writes.  On
the non-duplicate path the appended config is saved and the incremental patch
runs; the first component records what was written (the saved config and the
resulting project files).  The agent-prompt-file creation step (warn-only in
Go) is elided. -/
def runAddCore (cfg : DatagenConfig) (newService : Service)
    (files : ProjectFiles) : Option (DatagenConfig × ProjectFiles) × Option String :=
  if cfg.Services.any (fun svc => svc.Name = newService.Name) then
    (none, some ("Error: Service \x27" ++ newService.Name ++ "\x27 already exists"))
  else
    let cfg2 : DatagenConfig := { cfg with Services := cfg.Services ++ [newService] }
    match IncrementalAddService cfg2 newService files with
    | (files2, some e) => (some (cfg2, files2), some ("Error updating project files: " ++ e))
    | (files2, none) => (some (cfg2, files2), none)

/-- Boolean error test for the file-rewriting functions. -/
def isErrorB : Except String (List Char) → Bool
  | .error _ => true
  | .ok _ => false

/-- The content of `app/main.py` after running `updateMainPy`: the new content
on success, the unchanged input when the function errors before its write. -/
def writtenMainPy (cfg : DatagenConfig) (newService : Service)
    (mainContent : List Char) : List Char :=
  match updateMainPy cfg newService mainContent with
  | .ok c => c
  | .error _ => mainContent

/-- The webhook service of
`TestGenerateProject_WebhookSignatureVerificationChecksSecretBeforeHeader`
(internal/codegen/generator_test.go). -/
def poemWriter : Service :=
  { Name := "poem_writer", Type' := "webhook", Description := "Poem writer webhook",
    Prompt := ".claude/agents/poem-writer.md",
    AllowedTools := ⟨false, false, false, false⟩,
    InputSchema := { Name := "", Fields := [] },
    OutputSchema := none, Auth := none,
    Webhook := some { SignatureVerification := "hmac_sha256",
                      SignatureHeader := "X-Signature",
                      SecretEnv := "POEM_WRITER_HMAC_SECRET",
                      RetryEnabled := false, MaxRetries := 0, BackoffStrategy := "" },
    API := none, Streaming := none,
    WebhookPath := "/webhook/poem_writer", APIPath := "" }

/-- The signature-header read emitted for `poemWriter` (the exact line the
repository test searches for in generated output). -/
def sigHeaderLine : List Char :=
  chars "signature = request.headers.get(\"X-Signature\")"

/-- The secret lookup emitted for `poemWriter` (the exact line the repository
test searches for in generated output). -/
def secretLookupLine : List Char :=
  chars "secret = getattr(settings, \"poem_writer_hmac_secret\", None)"

/-- Modelled from the spec: the Template Compiler's handler block for a
`hmac_sha256` webhook service (the full-generation template in the generator
file is not under src/, only its test is).  Per the spec and the test
`TestGenerateProject_WebhookSignatureVerificationChecksSecretBeforeHeader`,
the block evaluates the configured-secret check strictly before the
signature-header check; this predicate captures exactly that pinned ordering
for the `poemWriter` fixture's two lines. -/
def specCompilerCheckOrder (block : List Char) : Prop :=
  occursStrictlyBefore secretLookupLine sigHeaderLine block = true

instance (block : List Char) : Decidable (specCompilerCheckOrder block) := by
  unfold specCompilerCheckOrder
  infer_instance

/-- A block satisfying the compiler's pinned secret-before-header ordering,
used to instantiate the equivalence refutation. -/
def compilerOrderBlock : List Char :=
  chars "\ndef verify_poem_writer_signature(request: Request, body: bytes):\n    " ++
  secretLookupLine ++
  chars "\n    if not secret:\n        return\n    " ++
  sigHeaderLine ++
  chars "\n    if not signature:\n        raise HTTPException(status_code=401, detail=\"Missing signature\")\n"

/-- Claim C2: the claim says the generated signature-verification code of both
paths evaluates the secret check before the signature-header check.  The
incremental path violates this: for the repository's own `poem_writer` test
fixture, `generateEndpointCode` emits the signature-header read (and its
missing-header rejection) strictly before the secret lookup, so a missing
header is rejected even when no secret is configured — contradicting the
emitted comment `Verification optional if secret not configured` and the
order the generator test pins for full generation. -/
theorem c2_incremental_checks_header_before_secret :
    occursStrictlyBefore sigHeaderLine secretLookupLine
      (generateEndpointCode poemWriter) = true := by
  decide

/-- Claim C3: the handler block produced by the Template Compiler (any block
with the secret-before-header ordering that the spec and the repository's
generator test pin for full generation) cannot be byte-identical to the block
the Incremental Patcher produces for the same `poem_writer` service, since
the latter orders the two checks the other way around. -/
theorem c3_compiler_patcher_blocks_differ :
    ∀ block : List Char, specCompilerCheckOrder block →
      block ≠ generateEndpointCode poemWriter := by
  intro block horder heq
  rw [heq] at horder
  have hfalse : occursStrictlyBefore secretLookupLine sigHeaderLine
      (generateEndpointCode poemWriter) = false := by decide
  unfold specCompilerCheckOrder at horder
  rw [hfalse] at horder
  exact Bool.false_ne_true horder

/-- Witness for C3 at a concrete secret-first block. -/
theorem c3_compiler_patcher_blocks_differ_witness :
    specCompilerCheckOrder compilerOrderBlock ∧
      compilerOrderBlock ≠ generateEndpointCode poemWriter :=
  ⟨by decide, c3_compiler_patcher_blocks_differ compilerOrderBlock (by decide)⟩

/-- Claim C10: a present `WebhookConfig` whose `signatureVerification` is the
empty string passes `validateWebhookConfig` (given the retry fields are
consistent): the whole signature block — enum membership and the hmac_sha256
header/secret requirements — is guarded by `signatureVerification != ""` and
is skipped entirely, even though `""` is outside the declared closed enum. -/
theorem c10_empty_signature_verification_accepted :
    ∀ wh : WebhookConfig, wh.SignatureVerification = "" →
      (wh.RetryEnabled = true → 0 < wh.MaxRetries) →
      validateWebhookConfig wh = .ok () := by
  intro wh h hr
  unfold validateWebhookConfig
  rw [if_pos h]
  unfold webhookRetryCheck
  rw [if_neg]
  intro hand
  have := hr hand.1
  omega

/-- Witness for C10: a concrete webhook config with empty
`signatureVerification`, an empty header and secret, and retry disabled is
accepted. -/
theorem c10_empty_signature_verification_accepted_witness :
    validateWebhookConfig
      { SignatureVerification := "", SignatureHeader := "", SecretEnv := "",
        RetryEnabled := false, MaxRetries := 0, BackoffStrategy := "" } = .ok () :=
  c10_empty_signature_verification_accepted _ rfl (by decide)

/-- Filesystem for the C7 counterexample: exactly the joined prompt path
exists. -/
def fsC7 : String → Bool := fun p => p = "./.claude/agents/notifier.md"

/-- Configuration for the C7 counterexample: one otherwise-valid webhook
service whose webhook settings have `retryEnabled = true`, `maxRetries = 3`
and a `backoffStrategy` far outside {exponential, linear}. -/
def cfgC7 : DatagenConfig :=
  { DatagenAPIKeyEnv := "DATAGEN_API_KEY", ClaudeAPIKeyEnv := "ANTHROPIC_API_KEY",
    Services := [
      { Name := "notifier", Type' := "webhook", Description := "Notifier webhook",
        Prompt := ".claude/agents/notifier.md",
        AllowedTools := ⟨false, false, false, false⟩,
        InputSchema := { Name := "", Fields := [] },
        OutputSchema := none, Auth := none,
        Webhook := some { SignatureVerification := "none", SignatureHeader := "",
                          SecretEnv := "", RetryEnabled := true, MaxRetries := 3,
                          BackoffStrategy := "sometimes" },
        API := none, Streaming := none,
        WebhookPath := "/webhook/notifier", APIPath := "" }] }

/-- Counterexample to claim C7 as stated: a config whose webhook settings have
`retryEnabled = true` and `backoffStrategy = "sometimes"` (outside
{exponential, linear}) is ACCEPTED by `ValidateConfig` — the validator never
examines `backoffStrategy`. -/
theorem c7_counterexample_backoff_not_checked :
    ValidateConfig fsC7 cfgC7 "." = .ok () := by
  rfl

/-- Claim C7 (amended): with `retryEnabled = true` the validator requires only
`maxRetries > 0`; `backoffStrategy` is never consulted — the result of
`validateWebhookConfig` is invariant under changing it — and a non-positive
`maxRetries` with retry enabled is rejected. -/
theorem c7_amended_retry_validation :
    (∀ (wh : WebhookConfig) (b1 b2 : String),
      validateWebhookConfig { wh with BackoffStrategy := b1 } =
        validateWebhookConfig { wh with BackoffStrategy := b2 }) ∧
    (∀ wh : WebhookConfig, wh.RetryEnabled = true → wh.MaxRetries ≤ 0 →
      exceptErr (validateWebhookConfig wh) = true) := by
  constructor
  · intro wh b1 b2
    rfl
  · intro wh hre hle
    have hrc : webhookRetryCheck wh =
        .error "max_retries must be > 0 when retry_enabled is true" := by
      unfold webhookRetryCheck
      rw [if_pos ⟨hre, hle⟩]
    unfold validateWebhookConfig
    split
    · rw [hrc]; rfl
    · split
      · rfl
      · split
        · rfl
        · split
          · rfl
          · rw [hrc]; rfl

/-- Witness for C7 (amended): concrete instances of both conjuncts. -/
theorem c7_amended_retry_validation_witness :
    validateWebhookConfig
      { SignatureVerification := "none", SignatureHeader := "", SecretEnv := "",
        RetryEnabled := true, MaxRetries := 3, BackoffStrategy := "linear" } =
      validateWebhookConfig
        { SignatureVerification := "none", SignatureHeader := "", SecretEnv := "",
          RetryEnabled := true, MaxRetries := 3, BackoffStrategy := "sometimes" } ∧
    exceptErr (validateWebhookConfig
      { SignatureVerification := "none", SignatureHeader := "", SecretEnv := "",
        RetryEnabled := true, MaxRetries := 0, BackoffStrategy := "linear" }) = true :=
  ⟨c7_amended_retry_validation.1
      { SignatureVerification := "none", SignatureHeader := "", SecretEnv := "",
        RetryEnabled := true, MaxRetries := 3, BackoffStrategy := "" } "linear" "sometimes",
   c7_amended_retry_validation.2 _ rfl (by decide)⟩

/-- Splicing lemma for `injectBeforeMarker`: when the marker's first
occurrence is exactly at the end of `pre`, the injection inserts the code
between `pre` and `suf` and changes nothing else. -/
theorem inject_splice (pre suf marker code : List Char)
    (h : goIndexFrom marker (pre ++ suf) 0 = some pre.length) :
    injectBeforeMarker (pre ++ suf) marker code = pre ++ code ++ suf := by
  unfold injectBeforeMarker
  simp only [h]
  rw [List.take_left, List.drop_left]

/-- Splicing lemma for `updateHealthCheckServices`: when the `"services": [`
pattern first occurs exactly after `pre` and the following `],` first occurs
exactly after `mid`, the old list content `mid` is replaced by the full
current service-name list and everything else is preserved. -/
theorem health_splice (cfg : DatagenConfig) (pre mid post : List Char)
    (h1 : goIndexFrom servicesPat
      (pre ++ servicesPat ++ mid ++ closeBracketComma ++ post) 0 = some pre.length)
    (h2 : goIndexFrom closeBracketComma
      ((pre ++ servicesPat ++ mid ++ closeBracketComma ++ post).drop pre.length) 0 =
      some (servicesPat.length + mid.length)) :
    updateHealthCheckServices (pre ++ servicesPat ++ mid ++ closeBracketComma ++ post) cfg =
      pre ++ servicesPat ++ healthList cfg ++ closeBracketComma ++ post := by
  unfold updateHealthCheckServices
  simp only [List.append_assoc] at h1 h2 ⊢
  simp only [h1, h2]
  rw [List.take_left]
  have hform : pre ++ (servicesPat ++ (mid ++ (closeBracketComma ++ post))) =
      (pre ++ (servicesPat ++ (mid ++ closeBracketComma))) ++ post := by
    simp [List.append_assoc]
  rw [hform]
  have hcb : closeBracketComma.length = 2 := rfl
  have hlen : (pre ++ (servicesPat ++ (mid ++ closeBracketComma))).length =
      pre.length + (servicesPat.length + mid.length) + 2 := by
    simp only [List.length_append, hcb]
    omega
  rw [List.drop_left' hlen]

/-- Claim C5: after the Incremental Patcher adds a service, `updateMainPy`
calls `updateHealthCheckServices` with the full updated `cfg`; this theorem
shows (first conjunct) that the call fully REPLACES the one list literal —
the old list content `mid` is discarded and the emitted literal is exactly
the quoted names of every service of the updated config, joined in config
order — and (second conjunct) that distinct service names yield pairwise
distinct rendered entries, so the emitted list has no duplicates. -/
theorem c5_health_list_full_replace :
    (∀ (cfg : DatagenConfig) (pre mid post : List Char),
      goIndexFrom servicesPat
        (pre ++ servicesPat ++ mid ++ closeBracketComma ++ post) 0 = some pre.length →
      goIndexFrom closeBracketComma
        ((pre ++ servicesPat ++ mid ++ closeBracketComma ++ post).drop pre.length) 0 =
        some (servicesPat.length + mid.length) →
      updateHealthCheckServices
        (pre ++ servicesPat ++ mid ++ closeBracketComma ++ post) cfg =
        pre ++ servicesPat ++ healthList cfg ++ closeBracketComma ++ post) ∧
    (∀ cfg : DatagenConfig, (cfg.Services.map Service.Name).Nodup →
      (cfg.Services.map
        (fun svc => chars "\"" ++ svc.Name.data ++ chars "\"")).Nodup) := by
  constructor
  · exact fun cfg pre mid post h1 h2 => health_splice cfg pre mid post h1 h2
  · intro cfg h
    have hmap : cfg.Services.map
        (fun svc => chars "\"" ++ svc.Name.data ++ chars "\"") =
        (cfg.Services.map Service.Name).map
          (fun n => chars "\"" ++ n.data ++ chars "\"") := by
      rw [List.map_map]; rfl
    rw [hmap]
    refine h.map ?_
    intro a b hab
    have hab' : '"' :: (a.data ++ ['"']) = '"' :: (b.data ++ ['"']) := hab
    have hcons := List.cons_injective hab'
    have hdata : a.data = b.data := List.append_cancel_right hcons
    exact congrArg String.mk hdata

/-- Service and config fixtures shared by the injection theorems: a minimal
valid `api` service `beta` being added to a project whose config already holds
service `alpha`. -/
def alphaSvc : Service :=
  { Name := "alpha", Type' := "api", Description := "Alpha api",
    Prompt := ".claude/agents/alpha.md",
    AllowedTools := ⟨false, false, false, false⟩,
    InputSchema := { Name := "", Fields := [] },
    OutputSchema := none, Auth := none, Webhook := none, API := none,
    Streaming := none, WebhookPath := "", APIPath := "/api/alpha" }

/-- The service being added in the injection fixtures. -/
def betaSvc : Service :=
  { Name := "beta", Type' := "api", Description := "Beta api",
    Prompt := ".claude/agents/beta.md",
    AllowedTools := ⟨false, false, false, false⟩,
    InputSchema := { Name := "", Fields := [] },
    OutputSchema := none, Auth := none, Webhook := none, API := none,
    Streaming := none, WebhookPath := "", APIPath := "/api/beta" }

/-- The updated two-service config (as `runAdd` passes it to the patcher:
`beta` already appended). -/
def cfgAB : DatagenConfig :=
  { DatagenAPIKeyEnv := "DATAGEN_API_KEY", ClaudeAPIKeyEnv := "ANTHROPIC_API_KEY",
    Services := [alphaSvc, betaSvc] }

/-- Entry module used against claim C1: both START markers are present but the
agent-loading END marker has been removed. -/
def mainNoAgentEnd : List Char :=
  chars "# === AGENT LOADING START ===\n# === ENDPOINT HANDLERS START ===\n" ++
  endpointHandlersEndM ++
  chars "\n\"services\": [],\n"

/-- Counterexample to claim C1 as stated: the claim covers removal of START
or END markers, but `updateMainPy` checks only the two START markers.  On an
entry module whose agent-loading END marker has been removed (START markers
intact) the patcher reports no error and rewrites the file (the write changes
the content), instead of failing with a missing-marker error and writing
nothing. -/
theorem c1_counterexample_end_marker_not_checked :
    strContains mainNoAgentEnd agentLoadingEndM = false ∧
    isErrorB (updateMainPy cfgAB betaSvc mainNoAgentEnd) = false ∧
    writtenMainPy cfgAB betaSvc mainNoAgentEnd ≠ mainNoAgentEnd := by
  refine ⟨by decide, by decide, by decide⟩

/-- Claim C1 (amended): `updateMainPy` detects only the two START markers.
When either START marker has been removed from the entry module, the whole
incremental addition fails with the missing-marker error and no file of the
project is written (the file state returned equals the input state). -/
theorem c1_amended_missing_start_marker_fails :
    ∀ (cfg : DatagenConfig) (svc : Service) (files : ProjectFiles),
      (strContains files.mainPy agentLoadingStartM = false ∨
       strContains files.mainPy endpointHandlersStartM = false) →
      (IncrementalAddService cfg svc files).1 = files ∧
      ∃ e, (IncrementalAddService cfg svc files).2 = some e := by
  intro cfg svc files h
  have herr : ∃ e, updateMainPy cfg svc files.mainPy = .error e := by
    unfold updateMainPy
    by_cases h1 : strContains files.mainPy agentLoadingStartM = false
    · rw [if_pos h1]; exact ⟨_, rfl⟩
    · rcases h with h | h
      · exact absurd h h1
      · rw [if_neg h1, if_pos h]; exact ⟨_, rfl⟩
  obtain ⟨e, he⟩ := herr
  unfold IncrementalAddService
  rw [he]
  exact ⟨rfl, _, rfl⟩

/-- Model files for the C1 witness: the entry module lacks both START markers. -/
def filesNoMarkers : ProjectFiles :=
  { mainPy := chars "# plain file, no injection zones\n",
    modelsPy := chars "# === SERVICE MODELS START ===\n# === SERVICE MODELS END ===\n",
    envExample := chars "" }

/-- Witness for C1 (amended) at a concrete project state. -/
theorem c1_amended_missing_start_marker_fails_witness :
    (IncrementalAddService cfgAB betaSvc filesNoMarkers).1 = filesNoMarkers ∧
    ∃ e, (IncrementalAddService cfgAB betaSvc filesNoMarkers).2 = some e :=
  c1_amended_missing_start_marker_fails cfgAB betaSvc filesNoMarkers (Or.inl (by decide))

/-- Claim C4 (amended): `updateMainPy` on a well-formed entry module — each
marker's first occurrence at its structural position (`A`/`B`/`C1`/`C2` the
surrounding user-owned text, `mid` the old health list) — changes the text
ONLY by (a) inserting the agent-registration line before the agent-loading
END marker, (b) inserting the endpoint-handler block before the
endpoint-handlers END marker, and (c) replacing the first
`"services": [...],` segment with the full service-name list: every other
character, including every user line outside the zones and all four marker
lines, is preserved verbatim and in relative order.  (The original claim is
falsified by (c): the health-list segment lies outside the marker zones and
is rewritten, see the counterexample.) -/
theorem c4_amended_frame
    (cfg : DatagenConfig) (svc : Service) (A B C1 mid C2 : List Char)
    (hs1 : strContains (A ++ agentLoadingEndM ++ B ++ endpointHandlersEndM ++ C1 ++
      servicesPat ++ mid ++ closeBracketComma ++ C2) agentLoadingStartM = true)
    (hs2 : strContains (A ++ agentLoadingEndM ++ B ++ endpointHandlersEndM ++ C1 ++
      servicesPat ++ mid ++ closeBracketComma ++ C2) endpointHandlersStartM = true)
    (h1 : goIndexFrom agentLoadingEndM (A ++ agentLoadingEndM ++ B ++
      endpointHandlersEndM ++ C1 ++ servicesPat ++ mid ++ closeBracketComma ++ C2) 0 =
      some A.length)
    (h2 : goIndexFrom endpointHandlersEndM (A ++ (agentLoadingCode svc ++ chars "\n") ++
      agentLoadingEndM ++ B ++ endpointHandlersEndM ++ C1 ++ servicesPat ++ mid ++
      closeBracketComma ++ C2) 0 =
      some (A ++ (agentLoadingCode svc ++ chars "\n") ++ agentLoadingEndM ++ B).length)
    (h3 : goIndexFrom servicesPat (A ++ (agentLoadingCode svc ++ chars "\n") ++
      agentLoadingEndM ++ B ++ (generateEndpointCode svc ++ chars "\n") ++
      endpointHandlersEndM ++ C1 ++ servicesPat ++ mid ++ closeBracketComma ++ C2) 0 =
      some (A ++ (agentLoadingCode svc ++ chars "\n") ++ agentLoadingEndM ++ B ++
        (generateEndpointCode svc ++ chars "\n") ++ endpointHandlersEndM ++ C1).length)
    (h4 : goIndexFrom closeBracketComma ((A ++ (agentLoadingCode svc ++ chars "\n") ++
      agentLoadingEndM ++ B ++ (generateEndpointCode svc ++ chars "\n") ++
      endpointHandlersEndM ++ C1 ++ servicesPat ++ mid ++ closeBracketComma ++ C2).drop
      (A ++ (agentLoadingCode svc ++ chars "\n") ++ agentLoadingEndM ++ B ++
        (generateEndpointCode svc ++ chars "\n") ++ endpointHandlersEndM ++ C1).length) 0 =
      some (servicesPat.length + mid.length)) :
    updateMainPy cfg svc (A ++ agentLoadingEndM ++ B ++ endpointHandlersEndM ++ C1 ++
      servicesPat ++ mid ++ closeBracketComma ++ C2) =
      .ok (A ++ (agentLoadingCode svc ++ chars "\n") ++ agentLoadingEndM ++ B ++
        (generateEndpointCode svc ++ chars "\n") ++ endpointHandlersEndM ++ C1 ++
        servicesPat ++ healthList cfg ++ closeBracketComma ++ C2) := by
  simp only [List.append_assoc] at hs1 hs2 h1 h2 h3 h4 ⊢
  unfold updateMainPy
  rw [if_neg (by simp [hs1]), if_neg (by simp [hs2])]
  rw [inject_splice _ _ _ _ h1]
  simp only [List.append_assoc]
  have hre1 : A ++ (agentLoadingCode svc ++ (chars "\n" ++ (agentLoadingEndM ++ (B ++
      (endpointHandlersEndM ++ (C1 ++ (servicesPat ++ (mid ++ (closeBracketComma ++ C2))))))))) =
      (A ++ (agentLoadingCode svc ++ (chars "\n" ++ (agentLoadingEndM ++ B)))) ++
      (endpointHandlersEndM ++ (C1 ++ (servicesPat ++ (mid ++ (closeBracketComma ++ C2))))) := by
    simp [List.append_assoc]
  rw [hre1] at h2 ⊢
  rw [inject_splice _ _ _ _ h2]
  simp only [List.append_assoc]
  have hre2 : A ++ (agentLoadingCode svc ++ (chars "\n" ++ (agentLoadingEndM ++ (B ++
      (generateEndpointCode svc ++ (chars "\n" ++ (endpointHandlersEndM ++ (C1 ++
      (servicesPat ++ (mid ++ (closeBracketComma ++ C2))))))))))) =
      (A ++ (agentLoadingCode svc ++ (chars "\n" ++ (agentLoadingEndM ++ (B ++
      (generateEndpointCode svc ++ (chars "\n" ++ (endpointHandlersEndM ++ C1)))))))) ++
      servicesPat ++ mid ++ closeBracketComma ++ C2 := by
    simp [List.append_assoc]
  rw [hre2] at h3 h4 ⊢
  rw [health_splice cfg _ mid C2 h3 h4]
  simp [List.append_assoc]

/-- Entry-module fragment before the agent-loading END marker in the C4/C5
fixtures (user header, START marker, existing registration). -/
def mainA : List Char :=
  chars "# user header line\n# === AGENT LOADING START ===\n    agent_executors[\"alpha\"] = load_agent(\"alpha\", \".claude/agents/alpha.md\")\n"

/-- Fragment between the two END markers (holds the endpoint START marker and
the existing handler). -/
def mainB : List Char :=
  chars "\n\n# === ENDPOINT HANDLERS START ===\n# alpha handler kept here\n"

/-- Fragment between the endpoint END marker and the health list. -/
def mainC1 : List Char :=
  chars "\n\n@app.get(\"/health\")\nasync def health():\n    return \x7b\"status\": \"ok\", "

/-- Old health-list content in the fixtures. -/
def mainMid : List Char := chars "\"alpha\""

/-- Trailing user-owned fragment in the fixtures. -/
def mainC2 : List Char := chars "\x7d\n\n# user trailing line\n"

/-- Witness for C4 (amended) on a concrete two-zone entry module. -/
theorem c4_amended_frame_witness :
    updateMainPy cfgAB betaSvc (mainA ++ agentLoadingEndM ++ mainB ++
      endpointHandlersEndM ++ mainC1 ++ servicesPat ++ mainMid ++
      closeBracketComma ++ mainC2) =
      .ok (mainA ++ (agentLoadingCode betaSvc ++ chars "\n") ++ agentLoadingEndM ++
        mainB ++ (generateEndpointCode betaSvc ++ chars "\n") ++
        endpointHandlersEndM ++ mainC1 ++ servicesPat ++ healthList cfgAB ++
        closeBracketComma ++ mainC2) :=
  c4_amended_frame cfgAB betaSvc mainA mainB mainC1 mainMid mainC2
    (by decide) (by decide) (by decide) (by decide) (by decide) (by decide)

/-- Entry module for the C4 counterexample: both zones intact, and a
user-added line OUTSIDE any zone whose text contains a `"services": [...]`
literal (placed before any other occurrence of that pattern). -/
def mainUserHealth : List Char :=
  chars "# === AGENT LOADING START ===\n" ++ agentLoadingEndM ++
  chars "\n# === ENDPOINT HANDLERS START ===\n" ++ endpointHandlersEndM ++
  chars "\nuser_backup = \x7b\"services\": [\"alpha\"], \"note\": \"mine\"\x7d\n"

/-- The user-added line of `mainUserHealth`. -/
def userBackupLine : List Char :=
  chars "user_backup = \x7b\"services\": [\"alpha\"], \"note\": \"mine\"\x7d"

/-- Counterexample to claim C4 as stated: running the Incremental Patcher on
an entry module with a user-added line outside any zone does NOT leave every
such line unchanged — `updateHealthCheckServices` rewrites the first
`"services": [...],` segment wherever it occurs, which here destroys the
user's own line (the patch succeeds and the written file no longer contains
the line). -/
theorem c4_counterexample_user_line_rewritten :
    isErrorB (updateMainPy cfgAB betaSvc mainUserHealth) = false ∧
    strContains mainUserHealth userBackupLine = true ∧
    strContains (writtenMainPy cfgAB betaSvc mainUserHealth) userBackupLine = false := by
  refine ⟨by decide, by decide, by decide⟩

instance : DecidableEq (Except String Unit) := fun a b =>
  match a, b with
  | .error x, .error y =>
    if h : x = y then isTrue (by rw [h]) else isFalse (fun hc => h (by cases hc; rfl))
  | .error _, .ok _ => isFalse (fun hc => Except.noConfusion hc)
  | .ok _, .error _ => isFalse (fun hc => Except.noConfusion hc)
  | .ok x, .ok y => isTrue (by cases x; cases y; rfl)

/-- The `index` parameter of `validateService` is never used by its body
(exactly as in the Go source, where only the caller's error wrapping uses
it). -/
theorem validateService_index_irrelevant (fs : String → Bool) (svc : Service)
    (i j : Nat) (dir : String) :
    validateService fs svc i dir = validateService fs svc j dir := rfl

/-- The service loop succeeds when every member service validates. -/
theorem validateServicesLoop_ok (fs : String → Bool) (dir : String) :
    ∀ (l : List Service) (i : Nat),
      (∀ svc ∈ l, validateService fs svc 0 dir = .ok ()) →
      validateServicesLoop fs dir l i = .ok () := by
  intro l
  induction l with
  | nil => intro i h; rfl
  | cons hd tl ih =>
    intro i h
    unfold validateServicesLoop
    have hhd : validateService fs hd i dir = .ok () := by
      rw [validateService_index_irrelevant fs hd i 0 dir]
      exact h hd (List.mem_cons_self hd tl)
    rw [hhd]
    exact ih (i + 1) (fun svc hm => h svc (List.mem_cons_of_mem hd hm))

/-- Claim C6: duplicate service names are the `add` flow's concern, not the
Validator's.  First conjunct: `runAdd` exits with the duplicate-name error
before any write when the new service's name matches an existing one
(`none` performed writes: no config save, no injection).  Second conjunct:
`ValidateConfig` contains no duplicate check at all — any config whose root
fields are non-empty and whose services each individually validate is
accepted, regardless of name collisions (the witness instantiates this with
two identical services). -/
theorem c6_duplicate_rejected_by_add_not_validator :
    (∀ (cfg : DatagenConfig) (newService : Service) (files : ProjectFiles),
      cfg.Services.any (fun svc => svc.Name = newService.Name) = true →
      runAddCore cfg newService files =
        (none, some ("Error: Service \x27" ++ newService.Name ++ "\x27 already exists"))) ∧
    (∀ (fs : String → Bool) (dir : String) (cfg : DatagenConfig),
      cfg.DatagenAPIKeyEnv ≠ "" → cfg.ClaudeAPIKeyEnv ≠ "" → cfg.Services ≠ [] →
      (∀ svc ∈ cfg.Services, validateService fs svc 0 dir = .ok ()) →
      ValidateConfig fs cfg dir = .ok ()) := by
  constructor
  · intro cfg newService files h
    unfold runAddCore
    rw [if_pos h]
  · intro fs dir cfg h1 h2 h3 h4
    unfold ValidateConfig
    rw [if_neg h1, if_neg h2, if_neg (by simp [List.length_eq_zero, h3])]
    exact validateServicesLoop_ok fs dir cfg.Services 0 h4

/-- Filesystem containing the joined prompt paths of the fixtures. -/
def fsAB : String → Bool := fun p =>
  p = "./.claude/agents/alpha.md" || p = "./.claude/agents/beta.md"

/-- A config with two identical (hence same-named), individually valid
services. -/
def cfgDup : DatagenConfig :=
  { DatagenAPIKeyEnv := "DATAGEN_API_KEY", ClaudeAPIKeyEnv := "ANTHROPIC_API_KEY",
    Services := [alphaSvc, alphaSvc] }

/-- Single-service config used to exercise the duplicate check of the add
flow. -/
def cfgAlphaOnly : DatagenConfig :=
  { DatagenAPIKeyEnv := "DATAGEN_API_KEY", ClaudeAPIKeyEnv := "ANTHROPIC_API_KEY",
    Services := [alphaSvc] }

/-- Witness for C6: adding `alpha` to a project already holding `alpha` errors
without writes, while the Validator accepts the duplicated config. -/
theorem c6_duplicate_rejected_by_add_not_validator_witness :
    runAddCore cfgAlphaOnly alphaSvc filesNoMarkers =
      (none, some ("Error: Service \x27" ++ alphaSvc.Name ++ "\x27 already exists")) ∧
    ValidateConfig fsAB cfgDup "." = .ok () :=
  ⟨c6_duplicate_rejected_by_add_not_validator.1 cfgAlphaOnly alphaSvc filesNoMarkers (by decide),
   c6_duplicate_rejected_by_add_not_validator.2 fsAB "." cfgDup (by decide) (by decide)
     (by decide) (by decide)⟩

/-- The per-kind path rules of `validateService` reject an empty or
non-`/`-prefixed path for the matching kind. -/
theorem svcPathCheck_err (svc : Service)
    (h : (svc.Type' = "webhook" ∧
            (svc.WebhookPath = "" ∨ strStartsWith svc.WebhookPath "/" = false)) ∨
         ((svc.Type' = "api" ∨ svc.Type' = "streaming") ∧
            (svc.APIPath = "" ∨ strStartsWith svc.APIPath "/" = false))) :
    ∃ e, svcPathCheck svc = .error e := by
  unfold svcPathCheck
  rcases h with ⟨ht, hp⟩ | ⟨ht, hp⟩
  · rw [if_pos ht]
    rcases hp with he | hs
    · rw [if_pos he]; exact ⟨_, rfl⟩
    · by_cases he : svc.WebhookPath = ""
      · rw [if_pos he]; exact ⟨_, rfl⟩
      · rw [if_neg he, if_pos hs]; exact ⟨_, rfl⟩
  · rcases ht with ht | ht
    · have hnw : ¬ svc.Type' = "webhook" := by
        rw [ht]; decide
      rw [if_neg hnw, if_pos ht]
      rcases hp with he | hs
      · rw [if_pos he]; exact ⟨_, rfl⟩
      · by_cases he : svc.APIPath = ""
        · rw [if_pos he]; exact ⟨_, rfl⟩
        · rw [if_neg he, if_pos hs]; exact ⟨_, rfl⟩
    · have hnw : ¬ svc.Type' = "webhook" := by
        rw [ht]; decide
      have hna : ¬ svc.Type' = "api" := by
        rw [ht]; decide
      rw [if_neg hnw, if_neg hna, if_pos ht]
      rcases hp with he | hs
      · rw [if_pos he]; exact ⟨_, rfl⟩
      · by_cases he : svc.APIPath = ""
        · rw [if_pos he]; exact ⟨_, rfl⟩
        · rw [if_neg he, if_pos hs]; exact ⟨_, rfl⟩

/-- A failing path/settings check makes the whole `validateService` fail
(whatever the earlier checks do, the function returns some error). -/
theorem validateService_err_of_pathCheck (fs : String → Bool) (svc : Service)
    (i : Nat) (dir : String) (h : ∃ e, svcPathCheck svc = .error e) :
    ∃ e2, validateService fs svc i dir = .error e2 := by
  obtain ⟨e, he⟩ := h
  unfold validateService
  by_cases h1 : svc.Name = ""
  · rw [if_pos h1]; exact ⟨_, rfl⟩
  rw [if_neg h1]
  by_cases h2 : svc.Type' = ""
  · rw [if_pos h2]; exact ⟨_, rfl⟩
  rw [if_neg h2]
  by_cases h3 : svc.Description = ""
  · rw [if_pos h3]; exact ⟨_, rfl⟩
  rw [if_neg h3]
  by_cases h4 : svc.Prompt = ""
  · rw [if_pos h4]; exact ⟨_, rfl⟩
  rw [if_neg h4]
  by_cases h5 : validServiceType svc.Type' = false
  · rw [if_pos h5]; exact ⟨_, rfl⟩
  rw [if_neg h5]
  by_cases h6 : promptFileExists fs dir svc.Prompt = false
  · rw [if_pos h6]; exact ⟨_, rfl⟩
  rw [if_neg h6, he]
  exact ⟨_, rfl⟩

/-- A failing member service makes the service loop fail. -/
theorem validateServicesLoop_err (fs : String → Bool) (dir : String) :
    ∀ (l : List Service) (i : Nat),
      (∃ svc ∈ l, ∃ e, validateService fs svc 0 dir = .error e) →
      ∃ e2, validateServicesLoop fs dir l i = .error e2 := by
  intro l
  induction l with
  | nil =>
    intro i h
    obtain ⟨svc, hm, _⟩ := h
    simp at hm
  | cons hd tl ih =>
    intro i h
    unfold validateServicesLoop
    cases hv : validateService fs hd i dir with
    | error e => exact ⟨_, rfl⟩
    | ok u =>
      obtain ⟨svc, hm, e, he⟩ := h
      rcases List.mem_cons.mp hm with rfl | htl
      · rw [validateService_index_irrelevant fs svc i 0 dir] at hv
        rw [hv] at he
        exact Except.noConfusion he
      · exact ih (i + 1) ⟨svc, htl, e, he⟩

/-- A failing member service makes `ValidateConfig` fail. -/
theorem ValidateConfig_err_of_svc (fs : String → Bool) (dir : String)
    (cfg : DatagenConfig)
    (h : ∃ svc ∈ cfg.Services, ∃ e, validateService fs svc 0 dir = .error e) :
    ∃ e2, ValidateConfig fs cfg dir = .error e2 := by
  unfold ValidateConfig
  by_cases h1 : cfg.DatagenAPIKeyEnv = ""
  · rw [if_pos h1]; exact ⟨_, rfl⟩
  rw [if_neg h1]
  by_cases h2 : cfg.ClaudeAPIKeyEnv = ""
  · rw [if_pos h2]; exact ⟨_, rfl⟩
  rw [if_neg h2]
  by_cases h3 : cfg.Services.length = 0
  · rw [if_pos h3]; exact ⟨_, rfl⟩
  rw [if_neg h3]
  exact validateServicesLoop_err fs dir cfg.Services 0 h

/-- Claim C8: a config holding a webhook service whose `webhookPath` is empty
or does not start with `/`, or an api/streaming service whose `apiPath` is
empty or does not start with `/`, is rejected by `ValidateConfig`. -/
theorem c8_path_validation :
    ∀ (fs : String → Bool) (dir : String) (cfg : DatagenConfig) (svc : Service),
      svc ∈ cfg.Services →
      ((svc.Type' = "webhook" ∧
          (svc.WebhookPath = "" ∨ strStartsWith svc.WebhookPath "/" = false)) ∨
       ((svc.Type' = "api" ∨ svc.Type' = "streaming") ∧
          (svc.APIPath = "" ∨ strStartsWith svc.APIPath "/" = false))) →
      ∃ e, ValidateConfig fs cfg dir = .error e := by
  intro fs dir cfg svc hmem hbad
  exact ValidateConfig_err_of_svc fs dir cfg
    ⟨svc, hmem, validateService_err_of_pathCheck fs svc 0 dir (svcPathCheck_err svc hbad)⟩

/-- A webhook service with an empty `webhookPath`, for the C8 witness. -/
def emptyPathWebhook : Service :=
  { Name := "hook", Type' := "webhook", Description := "Hook", Prompt := "p.md",
    AllowedTools := ⟨false, false, false, false⟩,
    InputSchema := { Name := "", Fields := [] },
    OutputSchema := none, Auth := none, Webhook := none, API := none,
    Streaming := none, WebhookPath := "", APIPath := "" }

/-- Config holding `emptyPathWebhook`. -/
def cfgEmptyPath : DatagenConfig :=
  { DatagenAPIKeyEnv := "DATAGEN_API_KEY", ClaudeAPIKeyEnv := "ANTHROPIC_API_KEY",
    Services := [emptyPathWebhook] }

/-- Witness for C8 at a concrete webhook service with empty path. -/
theorem c8_path_validation_witness :
    ∃ e, ValidateConfig (fun _ => true) cfgEmptyPath "." = .error e :=
  c8_path_validation (fun _ => true) "." cfgEmptyPath emptyPathWebhook
    (by decide) (by decide)

/-- `svcPathCheck` never looks at the output schema. -/
theorem svcPathCheck_out_irrelevant (svc : Service) (o1 o2 : Option Schema) :
    svcPathCheck { svc with OutputSchema := o1 } =
      svcPathCheck { svc with OutputSchema := o2 } := rfl

/-- The output-schema block is skipped whenever the service kind is not
`api`. -/
theorem outputSchemaCheck_not_api (svc : Service) (o : Option Schema)
    (h : svc.Type' ≠ "api") :
    outputSchemaCheck { svc with OutputSchema := o } = .ok () := by
  simp only [outputSchemaCheck]
  rw [if_neg h]

/-- A field accepted by `validateField` has a type in the closed enum. -/
theorem validateField_ok_type (f : Field) (h : validateField f = .ok ()) :
    validFieldType f.Type' = true := by
  unfold validateField at h
  by_cases h1 : f.Name = ""
  · rw [if_pos h1] at h; simp at h
  · rw [if_neg h1] at h
    by_cases h2 : validFieldType f.Type' = false
    · rw [if_pos h2] at h; simp at h
    · simp only [Bool.not_eq_false] at h2
      exact h2

/-- A field with a type outside the closed enum makes the field loop fail. -/
theorem validateFieldsLoop_err (label : String) :
    ∀ (fields : List Field) (f : Field), f ∈ fields →
      validFieldType f.Type' = false →
      ∃ e, validateFieldsLoop label fields = .error e := by
  intro fields
  induction fields with
  | nil => intro f hm; intro _; simp at hm
  | cons hd tl ih =>
    intro f hm hbad
    unfold validateFieldsLoop
    cases hv : validateField hd with
    | error e => exact ⟨_, rfl⟩
    | ok u =>
      rcases List.mem_cons.mp hm with rfl | htl
      · cases u
        have := validateField_ok_type f hv
        rw [hbad] at this
        exact absurd this (by decide)
      · exact ih f htl hbad

/-- For an `api` service, a bad field in a present, non-empty output schema
makes the output-schema block fail. -/
theorem outputSchemaCheck_api_err (svc : Service) (sch : Schema) (f : Field)
    (ht : svc.Type' = "api") (hm : f ∈ sch.Fields)
    (hbad : validFieldType f.Type' = false) :
    ∃ e, outputSchemaCheck { svc with OutputSchema := some sch } = .error e := by
  simp only [outputSchemaCheck]
  rw [if_pos ht]
  have hlen : 0 < sch.Fields.length :=
    List.length_pos.mpr (List.ne_nil_of_mem hm)
  rw [if_pos hlen]
  exact validateFieldsLoop_err "output_schema" sch.Fields f hm hbad

/-- Claim C9: output-schema fields are validated only for `kind == api`.
First conjunct: for a non-api service the result of `validateService` is
completely independent of the output schema, so an invalid output field is
ignored (the rest of the service validating or not as before).  Second
conjunct: for an api service that otherwise validates, attaching an output
schema containing a field with an invalid type makes validation fail. -/
theorem c9_output_schema_only_api :
    (∀ (fs : String → Bool) (dir : String) (svc : Service) (i : Nat)
        (o1 o2 : Option Schema),
      svc.Type' ≠ "api" →
      validateService fs { svc with OutputSchema := o1 } i dir =
        validateService fs { svc with OutputSchema := o2 } i dir) ∧
    (∀ (fs : String → Bool) (dir : String) (svc : Service) (i : Nat)
        (sch : Schema) (f : Field),
      svc.Type' = "api" →
      validateService fs { svc with OutputSchema := none } i dir = .ok () →
      f ∈ sch.Fields → validFieldType f.Type' = false →
      ∃ e, validateService fs { svc with OutputSchema := some sch } i dir = .error e) := by
  constructor
  · intro fs dir svc i o1 o2 h
    simp only [validateService]
    rw [outputSchemaCheck_not_api svc o1 h, outputSchemaCheck_not_api svc o2 h,
      svcPathCheck_out_irrelevant svc o1 o2]
  · intro fs dir svc i sch f ht hOk hm hbad
    simp only [validateService] at hOk ⊢
    by_cases h1 : svc.Name = ""
    · rw [if_pos h1] at hOk; simp at hOk
    rw [if_neg h1] at hOk ⊢
    by_cases h2 : svc.Type' = ""
    · rw [if_pos h2] at hOk; simp at hOk
    rw [if_neg h2] at hOk ⊢
    by_cases h3 : svc.Description = ""
    · rw [if_pos h3] at hOk; simp at hOk
    rw [if_neg h3] at hOk ⊢
    by_cases h4 : svc.Prompt = ""
    · rw [if_pos h4] at hOk; simp at hOk
    rw [if_neg h4] at hOk ⊢
    by_cases h5 : validServiceType svc.Type' = false
    · rw [if_pos h5] at hOk; simp at hOk
    rw [if_neg h5] at hOk ⊢
    by_cases h6 : promptFileExists fs dir svc.Prompt = false
    · rw [if_pos h6] at hOk; simp at hOk
    rw [if_neg h6] at hOk ⊢
    rw [svcPathCheck_out_irrelevant svc none (some sch)] at hOk
    cases hp : svcPathCheck { svc with OutputSchema := some sch } with
    | error e =>
      rw [hp] at hOk
      exact Except.noConfusion hOk
    | ok u =>
      rw [hp] at hOk
      cases hil : validateFieldsLoop "input_schema" svc.InputSchema.Fields with
      | error e =>
        rw [hil] at hOk
        exact Except.noConfusion hOk
      | ok u2 =>
        obtain ⟨e, he⟩ := outputSchemaCheck_api_err svc sch f ht hm hbad
        rw [he]
        exact ⟨_, rfl⟩

/-- A field whose type lies outside the closed field-type enum. -/
def badField : Field := { Name := "x", Type' := "number", Required := true, Default := "" }

/-- A schema holding `badField`. -/
def badSchema : Schema := { Name := "", Fields := [badField] }

/-- Witness for C9: the invalid output field is ignored on a webhook service
but rejected on an otherwise-valid api service. -/
theorem c9_output_schema_only_api_witness :
    validateService fsAB { emptyPathWebhook with OutputSchema := some badSchema } 0 "." =
      validateService fsAB { emptyPathWebhook with OutputSchema := none } 0 "." ∧
    ∃ e, validateService fsAB { alphaSvc with OutputSchema := some badSchema } 0 "." =
      .error e :=
  ⟨c9_output_schema_only_api.1 fsAB "." emptyPathWebhook 0 (some badSchema) none (by decide),
   c9_output_schema_only_api.2 fsAB "." alphaSvc 0 badSchema badField rfl (by decide)
     (by decide) (by decide)⟩

/-- Witness for C5 on the concrete health-list fixture. -/
theorem c5_health_list_full_replace_witness :
    updateHealthCheckServices
      (mainC1 ++ servicesPat ++ mainMid ++ closeBracketComma ++ mainC2) cfgAB =
      mainC1 ++ servicesPat ++ healthList cfgAB ++ closeBracketComma ++ mainC2 ∧
    (cfgAB.Services.map (fun svc => chars "\"" ++ svc.Name.data ++ chars "\"")).Nodup :=
  ⟨c5_health_list_full_replace.1 cfgAB mainC1 mainMid mainC2 (by decide) (by decide),
   c5_health_list_full_replace.2 cfgAB (by decide)⟩

end Datagen
